import Mathlib

/-!
Verification of the KrishiSadhan booking/availability subsystem.

This file shallowly embeds the booking lifecycle of `src/server/routes.ts`
(POST /api/bookings, POST /api/bookings/verify-payment,
POST /api/webhooks/razorpay, GET /api/equipment/:id/availability,
GET /api/bookings/:id/receipt) together with the ReceiptHistory
amount-formatting variants, and proves or refutes the spec's claims
about them.

Dates and times are modelled as natural numbers of milliseconds since the
epoch (the JavaScript `Date.getTime()` value).  Monetary values are natural
numbers, as in the database schema (`dailyRate: integer`).  The persistent
store (`storage.ts` is not among the provided sources; only its call sites
are) is modelled as in-memory lists with the ordinary ORM CRUD semantics:
lookups by id, updates mapping over the list, inserts appending a record
with a fresh serial id.
-/

namespace KrishiSadhan

/-- Milliseconds in one day, `1000 * 3600 * 24` as in the handler. -/
def msPerDay : Nat := 1000 * 3600 * 24

/-- `Math.ceil (n / d)` for a non-negative integer `n` and positive `d`. -/
def ceilDiv (n d : Nat) : Nat := (n + d - 1) / d

/-- Booking lifecycle status, the string enum of the `bookings` table. -/
inductive BStatus where
  | pending
  | awaiting_payment
  | paid
  | payment_failed
deriving DecidableEq, Repr

/-- An equipment record (the fields the booking lifecycle reads). -/
structure Equipment where
  id : Nat
  ownerId : Nat
  name : String
  dailyRate : Nat
  availability : Bool
deriving DecidableEq, Repr

/-- A booking record. -/
structure Booking where
  id : Nat
  equipmentId : Nat
  userId : Nat
  startDate : Nat
  endDate : Nat
  totalPrice : Nat
  status : BStatus
  razorpayOrderId : Option String
  razorpayPaymentId : Option String
deriving DecidableEq, Repr

/-- A receipt record. -/
structure Receipt where
  id : Nat
  bookingId : Nat
  userId : Nat
  amount : Nat
  status : BStatus
  razorpayPaymentId : Option String
deriving DecidableEq, Repr

/-- The persistent store: the three tables plus the serial-id counters. -/
structure DB where
  equipments : List Equipment
  bookings : List Booking
  receipts : List Receipt
  nextBookingId : Nat
  nextReceiptId : Nat
deriving DecidableEq, Repr

/-- `storage.getEquipment`: lookup by primary key. -/
def getEquipment (db : DB) (id : Nat) : Option Equipment :=
  db.equipments.find? (fun e => e.id == id)

/-- `storage.getBooking`: lookup by primary key. -/
def getBooking (db : DB) (id : Nat) : Option Booking :=
  db.bookings.find? (fun b => b.id == id)

/-- `storage.getReceiptByBookingId`: lookup by foreign key. -/
def getReceiptByBookingId (db : DB) (bookingId : Nat) : Option Receipt :=
  db.receipts.find? (fun r => r.bookingId == bookingId)

/-- `storage.updateEquipment(id, { availability })`: update by primary key. -/
def updateEquipmentAvailability (db : DB) (id : Nat) (avail : Bool) : DB :=
  { db with
    equipments := db.equipments.map
      (fun e => if e.id == id then { e with availability := avail } else e) }

/-- `storage.updateBooking(id, patch)`: update by primary key, returning the
updated record (or `none` when no row matches, as the ORM does). -/
def updateBooking (db : DB) (id : Nat) (patch : Booking → Booking) :
    DB × Option Booking :=
  match db.bookings.find? (fun b => b.id == id) with
  | none => (db, none)
  | some b =>
    let b' := patch b
    ({ db with
       bookings := db.bookings.map (fun x => if x.id == id then b' else x) },
     some b')

/-- `storage.createBooking`: insert with a fresh serial id. -/
def createBooking (db : DB) (equipmentId userId startDate endDate totalPrice : Nat)
    (status : BStatus) : DB × Booking :=
  let b : Booking :=
    { id := db.nextBookingId, equipmentId := equipmentId, userId := userId,
      startDate := startDate, endDate := endDate, totalPrice := totalPrice,
      status := status, razorpayOrderId := none, razorpayPaymentId := none }
  ({ db with bookings := db.bookings ++ [b],
             nextBookingId := db.nextBookingId + 1 }, b)

/-- `storage.createReceipt`: insert with a fresh serial id (a plain ORM
insert; the handlers, not the store, are responsible for any dedup). -/
def createReceipt (db : DB) (bookingId userId amount : Nat) (status : BStatus)
    (razorpayPaymentId : Option String) : DB × Receipt :=
  let r : Receipt :=
    { id := db.nextReceiptId, bookingId := bookingId, userId := userId,
      amount := amount, status := status,
      razorpayPaymentId := razorpayPaymentId }
  ({ db with receipts := db.receipts ++ [r],
             nextReceiptId := db.nextReceiptId + 1 }, r)

/-- A status that holds the equipment's slot for the overlap check. -/
def holdsSlot : BStatus → Bool
  | .pending => true
  | .awaiting_payment => true
  | .paid => true
  | .payment_failed => false

/-- Modelled from the spec: `storage.checkEquipmentAvailability` is declared
in `server/storage.ts`, which is not among the provided sources.  Spec §4.1:
fetch all bookings for the equipment whose status is in the
`pending`/`awaiting_payment`/`paid` set and return `false` iff any of their
inclusive `[start,end]` intervals intersects the requested interval
(`existing.start <= requested.end AND existing.end >= requested.start`). -/
def checkEquipmentAvailability (db : DB) (equipmentId s e : Nat) : Bool :=
  !(db.bookings.any (fun b =>
      b.equipmentId == equipmentId && holdsSlot b.status &&
      decide (b.startDate ≤ e) && decide (s ≤ b.endDate)))

/-- `totalDays` of the POST /api/bookings handler:
`Math.max(1, Math.ceil((end - start) / (1000*3600*24)) + 1)`.
For `end < start` the JavaScript expression is `max 1` of a non-positive
number plus one, i.e. `1`, which truncated subtraction reproduces. -/
def totalDays (startDate endDate : Nat) : Nat :=
  max 1 (ceilDiv (endDate - startDate) msPerDay + 1)

/-- The spec's day-count formula: `inclusiveDayCount = ceil((end-start)/1day) + 1`. -/
def inclusiveDayCount (startDate endDate : Nat) : Nat :=
  ceilDiv (endDate - startDate) msPerDay + 1

/-- Result of POST /api/bookings. -/
inductive CreateResult where
  | notFound
  | unavailableFlag
  | unavailableDates
  | created (booking : Option Booking)
  | paymentFailed (bookingId : Nat)
deriving DecidableEq, Repr

/-- The booking carried by a 201 response, if any. -/
def createdBooking? : CreateResult → Option Booking
  | .created b => b
  | _ => none

/-- POST /api/bookings (`src/server/routes.ts`).  `orderId` stands for the
id returned by `createPaymentSession`; `paymentSessionFails` selects the
`catch (paymentError)` branch (the gateway call is external I/O). -/
def postBookings (db : DB) (userId equipmentId startDate endDate : Nat)
    (orderId : String) (paymentSessionFails : Bool) : DB × CreateResult :=
  match getEquipment db equipmentId with
  | none => (db, .notFound)
  | some equipment =>
    if !equipment.availability then (db, .unavailableFlag)
    else
      let tDays := totalDays startDate endDate
      let totalAmount := equipment.dailyRate * tDays
      if !checkEquipmentAvailability db equipmentId startDate endDate then
        (db, .unavailableDates)
      else
        let cb :=
          createBooking db equipmentId userId startDate endDate totalAmount .pending
        let db2 := updateEquipmentAvailability cb.1 equipmentId false
        if paymentSessionFails then
          let db3 := updateEquipmentAvailability db2 equipmentId true
          let db4 := (updateBooking db3 cb.2.id
            (fun b => { b with status := .payment_failed })).1
          (db4, .paymentFailed cb.2.id)
        else
          let ub := updateBooking db2 cb.2.id
            (fun b => { b with status := .awaiting_payment,
                               razorpayOrderId := some orderId })
          (ub.1, .created ub.2)

/-- Result of POST /api/bookings/verify-payment. -/
inductive VerifyResult where
  | missingFields
  | bookingNotFound
  | equipmentNotFound
  | invalidSignature
  | ok (booking : Option Booking) (receipt : Receipt)
deriving DecidableEq, Repr

/-- POST /api/bookings/verify-payment (`src/server/routes.ts`).
`signatureValid` stands for the result of `verifyPaymentSignature` (external
HMAC check in `server/payment.ts`).  Note the receipt amount is
`booking.totalPrice * 100` ("Amount in paise") and that no status guard or
existing-receipt check precedes the insert. -/
def postVerifyPayment (db : DB) (bookingId : Nat) (paymentId : String)
    (signatureValid : Bool) : DB × VerifyResult :=
  match getBooking db bookingId with
  | none => (db, .bookingNotFound)
  | some booking =>
    match getEquipment db booking.equipmentId with
    | none => (db, .equipmentNotFound)
    | some _equipment =>
      if !signatureValid then (db, .invalidSignature)
      else
        let (db1, updated) := updateBooking db bookingId
          (fun b => { b with status := .paid,
                             razorpayPaymentId := some paymentId })
        let (db2, receipt) := createReceipt db1 booking.id booking.userId
          (booking.totalPrice * 100) .paid (some paymentId)
        (db2, .ok updated receipt)

/-- A webhook event as consumed by `handleWebhookEvent`:
`event.payload.payment.status`, `event.payload.payment.order_id`,
`event.payload.payment.id`. -/
structure WebhookEvent where
  paymentStatus : String
  orderBookingId : Nat
  paymentId : String
deriving DecidableEq, Repr

/-- Modelled from the spec: `generateReceipt` lives in `server/payment.ts`,
which is not among the provided sources.  Spec §4.3: the Receipt Generator
emits a receipt whose amount equals the booking's `totalPrice` and is
idempotent per booking (an existing receipt is returned, not duplicated). -/
def generateReceipt (db : DB) (bookingId : Nat) (paymentId : String) : DB :=
  match getReceiptByBookingId db bookingId with
  | some _ => db
  | none =>
    match getBooking db bookingId with
    | none => db
    | some b =>
      (createReceipt db b.id b.userId b.totalPrice .paid (some paymentId)).1

/-- The state transitions of the razorpay webhook handler after
`handleWebhookEvent` classified the event: on `captured`, booking → `paid`
and equipment locked and a receipt generated; on `failed`, booking →
`payment_failed` and equipment released; otherwise no change. -/
def processWebhookEvent (db : DB) (event : WebhookEvent) : DB :=
  if event.paymentStatus == "captured" then
    match updateBooking db event.orderBookingId
        (fun b => { b with status := .paid,
                           razorpayPaymentId := some event.paymentId }) with
    | (db1, some booking) =>
      let db2 := updateEquipmentAvailability db1 booking.equipmentId false
      generateReceipt db2 event.orderBookingId event.paymentId
    | (db1, none) => db1
  else if event.paymentStatus == "failed" then
    match updateBooking db event.orderBookingId
        (fun b => { b with status := .payment_failed }) with
    | (db1, some booking) => updateEquipmentAvailability db1 booking.equipmentId true
    | (db1, none) => db1
  else db

/-- Result of POST /api/webhooks/razorpay. -/
inductive WebhookResult where
  | missingSignature
  | invalidSignature
  | received
deriving DecidableEq, Repr

/-- POST /api/webhooks/razorpay (`src/server/routes.ts`).  `hmacSha256`
stands for `crypto.createHmac('sha256', secret).update(body).digest('hex')`
(an arbitrary function of secret and body — the model is parametric in it).
`secret` is `process.env.RAZORPAY_WEBHOOK_SECRET`: the handler verifies the
`x-razorpay-signature` header only when the secret is configured. -/
def postWebhook (hmacSha256 : String → String → String) (db : DB)
    (secret : Option String) (signature : Option String) (body : String)
    (event : WebhookEvent) : DB × WebhookResult :=
  match secret with
  | some s =>
    match signature with
    | none => (db, .missingSignature)
    | some sig =>
      if sig ≠ hmacSha256 s body then (db, .invalidSignature)
      else (processWebhookEvent db event, .received)
  | none => (processWebhookEvent db event, .received)

/-- The resolved start date of GET /api/equipment/:id/availability:
default `now`, then clamped forward (`if (startDate < now) startDate = now`). -/
def resolvedStart (now : Nat) (qStart : Option Nat) : Nat :=
  if qStart.getD now < now then now else qStart.getD now

/-- The resolved end date of GET /api/equipment/:id/availability:
default `now + 30 days`, then pushed past the resolved start
(`if (endDate <= startDate) endDate = startDate + 30 days`). -/
def resolvedEnd (now : Nat) (qStart qEnd : Option Nat) : Nat :=
  if qEnd.getD (now + 30 * msPerDay) ≤ resolvedStart now qStart then
    resolvedStart now qStart + 30 * msPerDay
  else qEnd.getD (now + 30 * msPerDay)

/-- The JSON body of a 200 response of the availability endpoint:
`available`, plus `startDate`/`endDate` fields when the branch emits them. -/
structure AvailabilityResponse where
  available : Bool
  startDate : Option Nat
  endDate : Option Nat
deriving DecidableEq, Repr

/-- Result of GET /api/equipment/:id/availability. -/
inductive AvailResult where
  | notFound
  | okResp (r : AvailabilityResponse)
deriving DecidableEq, Repr

/-- GET /api/equipment/:id/availability (`src/server/routes.ts`).  Dates are
parsed and resolved before the equipment lookup; the branch for
`!equipment.availability` responds `{ available: false, message }` with no
date fields, while the range-check branch responds with `available`,
`startDate` and `endDate`. -/
def getAvailabilityRoute (db : DB) (equipmentId now : Nat)
    (qStart qEnd : Option Nat) : AvailResult :=
  let s := resolvedStart now qStart
  let e := resolvedEnd now qStart qEnd
  match getEquipment db equipmentId with
  | none => .notFound
  | some equipment =>
    if !equipment.availability then
      .okResp { available := false, startDate := none, endDate := none }
    else
      .okResp { available := checkEquipmentAvailability db equipmentId s e,
                startDate := some s, endDate := some e }

/-- Result of GET /api/bookings/:id/receipt. -/
inductive ReceiptResult where
  | bookingNotFound
  | receiptNotFound
  | notAuthorized
  | ok (receipt : Receipt)
deriving DecidableEq, Repr

/-- The receipt carried by a 200 response, if any. -/
def okReceipt? : ReceiptResult → Option Receipt
  | .ok r => some r
  | _ => none

/-- GET /api/bookings/:id/receipt (`src/server/routes.ts`).  When no receipt
exists yet and the booking is `paid`, a receipt is created (amount
`booking.totalPrice * 100`, "Amount in paise") and returned immediately;
the `receipt.userId !== req.user.id` ownership check sits only on the
branch that found an existing receipt. -/
def getBookingReceiptRoute (db : DB) (requesterId bookingId : Nat) :
    DB × ReceiptResult :=
  match getBooking db bookingId with
  | none => (db, .bookingNotFound)
  | some booking =>
    match getReceiptByBookingId db bookingId with
    | none =>
      if booking.status = .paid then
        let (db1, newReceipt) := createReceipt db booking.id booking.userId
          (booking.totalPrice * 100) .paid booking.razorpayPaymentId
        (db1, .ok newReceipt)
      else (db, .receiptNotFound)
    | some receipt =>
      if receipt.userId ≠ requesterId then (db, .notAuthorized)
      else (db, .ok receipt)

/-- `formatRupees` of `src/client/src/pages/ReceiptHistory.tsx`: the rupee
value handed to the INR formatter is `amount / 100` ("Convert paise to
rupees before formatting"). -/
def formatRupeesReceiptHistory (amount : ℚ) : ℚ := amount / 100

/-- `formatRupees` of the historical variant `src/unnamed/part_004`: the
rupee value handed to the INR formatter is `amount` itself. -/
def formatRupeesPart004 (amount : ℚ) : ℚ := amount

/-! ### Store lemmas -/

/-- A store is booking-fresh when no stored booking already carries the next
serial id (the database's primary-key uniqueness). -/
def bookingIdsFresh (db : DB) : Prop :=
  ∀ b ∈ db.bookings, b.id ≠ db.nextBookingId

instance (db : DB) : Decidable (bookingIdsFresh db) := by
  unfold bookingIdsFresh; infer_instance

theorem find?_cons_eq (p : α → Bool) (a : α) (l : List α) :
    (a :: l).find? p = if p a then some a else l.find? p := by
  cases h : p a <;> simp [List.find?, h]

theorem find?_map_ite (key : α → Nat) (id : Nat) (f : α → α)
    (hf : ∀ x, key (f x) = key x) (l : List α) :
    (l.map (fun x => if key x == id then f x else x)).find?
        (fun x => key x == id)
      = (l.find? (fun x => key x == id)).map f := by
  induction l with
  | nil => rfl
  | cons x xs ih =>
    by_cases h : key x = id
    · simp [find?_cons_eq, h, hf]
    · rw [List.map_cons, if_neg (by simpa using h), find?_cons_eq, find?_cons_eq,
        if_neg (by simpa using h), if_neg (by simpa using h), ih]

theorem find?_append_of_none (p : α → Bool) (l1 l2 : List α)
    (h : l1.find? p = none) : (l1 ++ l2).find? p = l2.find? p := by
  rw [List.find?_append, h, Option.none_or]

/-- Looking up an equipment after `updateEquipmentAvailability` on the same
id yields the stored record with its `availability` replaced. -/
theorem getEquipment_updateAvail (db : DB) (id : Nat) (a : Bool) :
    getEquipment (updateEquipmentAvailability db id a) id
      = (getEquipment db id).map (fun e => { e with availability := a }) := by
  unfold getEquipment updateEquipmentAvailability
  exact find?_map_ite (fun e => e.id) id (fun e => { e with availability := a })
    (fun _ => rfl) db.equipments

/-- `updateBooking` leaves the equipments table unchanged. -/
theorem updateBooking_equipments (db : DB) (id : Nat) (patch : Booking → Booking) :
    (updateBooking db id patch).1.equipments = db.equipments := by
  unfold updateBooking
  cases db.bookings.find? (fun b => b.id == id) <;> rfl

/-- `updateEquipmentAvailability` leaves the bookings table unchanged. -/
theorem updateEquipmentAvailability_bookings (db : DB) (id : Nat) (a : Bool) :
    (updateEquipmentAvailability db id a).bookings = db.bookings := rfl

/-- In a booking-fresh store, no stored booking matches the next serial id. -/
theorem find?_nextBookingId_eq_none (db : DB) (h : bookingIdsFresh db) :
    db.bookings.find? (fun b => b.id == db.nextBookingId) = none := by
  rw [List.find?_eq_none]
  intro b hb
  simpa using h b hb

/-- Updating a booking found via `find?` returns the patched record. -/
theorem updateBooking_snd (db : DB) (id : Nat) (patch : Booking → Booking)
    (b : Booking) (hfind : db.bookings.find? (fun x => x.id == id) = some b) :
    (updateBooking db id patch).2 = some (patch b) := by
  unfold updateBooking
  rw [hfind]

theorem find?_map_ite_const (key : α → Nat) (id : Nat) (c : α) (hc : key c = id)
    (l : List α) :
    (l.map (fun x => if key x == id then c else x)).find?
        (fun x => key x == id)
      = (l.find? (fun x => key x == id)).map (fun _ => c) := by
  induction l with
  | nil => rfl
  | cons x xs ih =>
    by_cases h : key x = id
    · simp [find?_cons_eq, h, hc]
    · rw [List.map_cons, if_neg (by simpa using h), find?_cons_eq, find?_cons_eq,
        if_neg (by simpa using h), if_neg (by simpa using h), ih]

/-- Looking up a booking after `updateBooking` patched it. -/
theorem getBooking_updateBooking (db : DB) (id : Nat) (patch : Booking → Booking)
    (b : Booking) (hfind : db.bookings.find? (fun x => x.id == id) = some b)
    (hid : (patch b).id = b.id) :
    getBooking (updateBooking db id patch).1 id = some (patch b) := by
  have hbid : b.id = id := by simpa using List.find?_some hfind
  unfold getBooking updateBooking
  rw [hfind]
  have := find?_map_ite_const (fun x : Booking => x.id) id (patch b)
    (by show (patch b).id = id; rw [hid, hbid]) db.bookings
  simp only [this, hfind]
  rfl

/-- The code's `totalDays` agrees with the spec's `inclusiveDayCount`:
the `max 1` guard is redundant because the ceiling term is at least 1. -/
theorem totalDays_eq_inclusiveDayCount (s e : Nat) :
    totalDays s e = inclusiveDayCount s e := by
  unfold totalDays inclusiveDayCount
  exact Nat.max_eq_right (Nat.le_add_left 1 _)

/-- `getEquipment` is unaffected by `updateBooking`. -/
theorem getEquipment_updateBooking (db : DB) (id : Nat) (patch : Booking → Booking)
    (eqId : Nat) :
    getEquipment (updateBooking db id patch).1 eqId = getEquipment db eqId := by
  unfold getEquipment
  rw [updateBooking_equipments]

/-- The booking freshly inserted by the accepted-create path. -/
def newBooking (db : DB) (userId equipmentId s e totalAmount : Nat) : Booking :=
  { id := db.nextBookingId, equipmentId := equipmentId, userId := userId,
    startDate := s, endDate := e, totalPrice := totalAmount,
    status := .pending, razorpayOrderId := none, razorpayPaymentId := none }

/-- In a fresh store, the just-inserted booking is the one `find?` locates. -/
theorem find?_inserted (db : DB) (b : Booking) (hfresh : bookingIdsFresh db)
    (hid : b.id = db.nextBookingId) :
    (db.bookings ++ [b]).find? (fun x => x.id == db.nextBookingId) = some b := by
  rw [find?_append_of_none _ _ _ (find?_nextBookingId_eq_none db hfresh)]
  simp [find?_cons_eq, hid]

/-- `updateBooking` on a found row, as a pair equation. -/
theorem updateBooking_eq (db : DB) (id : Nat) (patch : Booking → Booking)
    (b : Booking) (hfind : db.bookings.find? (fun x => x.id == id) = some b) :
    updateBooking db id patch
      = ({ db with bookings := (db.bookings.map
            (fun x => if x.id == id then patch b else x)) }, some (patch b)) := by
  unfold updateBooking
  rw [hfind]

/-- The accepted-create path of POST /api/bookings: the 201 response carries
the stored booking, in state `awaiting_payment` with the gateway order id
and `totalPrice = dailyRate * totalDays`. -/
theorem postBookings_created (db : DB) (userId equipmentId s e : Nat)
    (orderId : String) (equip : Equipment)
    (hfresh : bookingIdsFresh db)
    (h1 : getEquipment db equipmentId = some equip)
    (h2 : equip.availability = true)
    (h3 : checkEquipmentAvailability db equipmentId s e = true) :
    (postBookings db userId equipmentId s e orderId false).2
      = .created (some { newBooking db userId equipmentId s e
            (equip.dailyRate * totalDays s e) with
          status := .awaiting_payment, razorpayOrderId := some orderId }) := by
  have hfind := find?_inserted db
    (newBooking db userId equipmentId s e (equip.dailyRate * totalDays s e))
    hfresh rfl
  simp only [newBooking] at hfind
  simp only [postBookings, createBooking, updateEquipmentAvailability,
    updateBooking, h1, h2, h3, Bool.not_true, Bool.false_eq_true, if_false,
    hfind, newBooking]

/-- The rollback path of POST /api/bookings: when payment session creation
fails, the response is `paymentFailed`, the equipment's availability is
restored to `true`, and the persisted booking ends in `payment_failed`. -/
theorem postBookings_rollback (db : DB) (userId equipmentId s e : Nat)
    (orderId : String) (equip : Equipment)
    (hfresh : bookingIdsFresh db)
    (h1 : getEquipment db equipmentId = some equip)
    (h2 : equip.availability = true)
    (h3 : checkEquipmentAvailability db equipmentId s e = true) :
    (postBookings db userId equipmentId s e orderId true).2
        = .paymentFailed db.nextBookingId ∧
    getEquipment (postBookings db userId equipmentId s e orderId true).1 equipmentId
        = some { equip with availability := true } ∧
    getBooking (postBookings db userId equipmentId s e orderId true).1
        db.nextBookingId
      = some { newBooking db userId equipmentId s e
          (equip.dailyRate * totalDays s e) with status := .payment_failed } := by
  refine ⟨?_, ?_, ?_⟩
  · simp only [postBookings, h1, h2, h3, Bool.not_true, Bool.false_eq_true,
      if_false, if_true]
    rfl
  · simp only [postBookings, h1, h2, h3, Bool.not_true, Bool.false_eq_true,
      if_false, if_true]
    rw [getEquipment_updateBooking, getEquipment_updateAvail,
      getEquipment_updateAvail]
    have hcb : getEquipment (createBooking db equipmentId userId s e
        (equip.dailyRate * totalDays s e) .pending).1 equipmentId
        = some equip := h1
    rw [hcb]
    rfl
  · simp only [postBookings, h1, h2, h3, Bool.not_true, Bool.false_eq_true,
      if_false, if_true]
    have hid : (createBooking db equipmentId userId s e
        (equip.dailyRate * totalDays s e) .pending).2.id = db.nextBookingId := rfl
    rw [hid]
    exact getBooking_updateBooking _ db.nextBookingId _
      (newBooking db userId equipmentId s e (equip.dailyRate * totalDays s e))
      (find?_inserted db _ hfresh rfl) rfl

/-- The accepted-create path also persists the booking: after a successful
POST /api/bookings the stored row is in `awaiting_payment` with the computed
total price. -/
theorem postBookings_created_getBooking (db : DB) (userId equipmentId s e : Nat)
    (orderId : String) (equip : Equipment)
    (hfresh : bookingIdsFresh db)
    (h1 : getEquipment db equipmentId = some equip)
    (h2 : equip.availability = true)
    (h3 : checkEquipmentAvailability db equipmentId s e = true) :
    getBooking (postBookings db userId equipmentId s e orderId false).1
        db.nextBookingId
      = some { newBooking db userId equipmentId s e
          (equip.dailyRate * totalDays s e) with
            status := .awaiting_payment, razorpayOrderId := some orderId } := by
  simp only [postBookings, h1, h2, h3, Bool.not_true, Bool.false_eq_true,
    if_false]
  have hid : (createBooking db equipmentId userId s e
      (equip.dailyRate * totalDays s e) .pending).2.id = db.nextBookingId := rfl
  rw [hid]
  exact getBooking_updateBooking _ db.nextBookingId _
    (newBooking db userId equipmentId s e (equip.dailyRate * totalDays s e))
    (find?_inserted db _ hfresh rfl) rfl

/-! ### Sample stores used as concrete instances -/

/-- An available piece of equipment with a daily rate of 1000. -/
def sampleEquipment : Equipment :=
  { id := 1, ownerId := 9, name := "Tractor", dailyRate := 1000,
    availability := true }

/-- A store with one available equipment and no bookings. -/
def sampleDB : DB :=
  { equipments := [sampleEquipment], bookings := [], receipts := [],
    nextBookingId := 1, nextReceiptId := 1 }

/-- An `awaiting_payment` booking of `sampleEquipment` by user 7 for 3000. -/
def awaitingBooking : Booking :=
  { id := 1, equipmentId := 1, userId := 7, startDate := 10, endDate := 20,
    totalPrice := 3000, status := .awaiting_payment,
    razorpayOrderId := some "order_1", razorpayPaymentId := none }

/-- A store holding `awaitingBooking` and no receipts. -/
def awaitingDB : DB :=
  { equipments := [{ sampleEquipment with availability := false }],
    bookings := [awaitingBooking], receipts := [],
    nextBookingId := 2, nextReceiptId := 1 }

/-- 2025-03-01T00:00:00Z in epoch milliseconds. -/
def mar1_2025 : Nat := 1740787200000

/-- 2025-03-03T00:00:00Z in epoch milliseconds. -/
def mar3_2025 : Nat := 1740960000000

/-! ### The claims -/

/-- C2: every booking accepted by POST /api/bookings with start `s` and end
`e` (`e` not preceding `s`) persists
`totalPrice = dailyRate × inclusiveDayCount s e`, where
`inclusiveDayCount = ceil((e−s)/1 day) + 1`; in particular a same-day
booking is priced as 1 day and 2025-03-01..2025-03-03 as 3 days (the
witness theorem evaluates both examples). The theorem covers both accepted
paths (payment session created or failed), since the price is fixed at
insertion. -/
theorem C2_totalPrice_inclusive_day_count (db : DB)
    (userId equipmentId s e : Nat) (orderId : String)
    (paymentSessionFails : Bool) (equip : Equipment)
    (hfresh : bookingIdsFresh db)
    (h1 : getEquipment db equipmentId = some equip)
    (h2 : equip.availability = true)
    (h3 : checkEquipmentAvailability db equipmentId s e = true)
    (_hse : s ≤ e) :
    (getBooking (postBookings db userId equipmentId s e orderId
          paymentSessionFails).1 db.nextBookingId).map (fun b => b.totalPrice)
      = some (equip.dailyRate * inclusiveDayCount s e) := by
  cases paymentSessionFails with
  | true =>
    obtain ⟨-, -, hbk⟩ :=
      postBookings_rollback db userId equipmentId s e orderId equip hfresh h1 h2 h3
    rw [hbk, ← totalDays_eq_inclusiveDayCount]
    rfl
  | false =>
    rw [postBookings_created_getBooking db userId equipmentId s e orderId equip
      hfresh h1 h2 h3, ← totalDays_eq_inclusiveDayCount]
    rfl

/-- C2 witness: booking the sample equipment (rate 1000) for
2025-03-01..2025-03-03 stores `1000 × inclusiveDayCount`, and the inclusive
day count of that range evaluates to 3 while a same-day range evaluates
to 1. -/
theorem C2_witness :
    (getBooking (postBookings sampleDB 7 1 mar1_2025 mar3_2025 "order_1"
          false).1 sampleDB.nextBookingId).map (fun b => b.totalPrice)
      = some (sampleEquipment.dailyRate * inclusiveDayCount mar1_2025 mar3_2025)
    ∧ inclusiveDayCount mar1_2025 mar3_2025 = 3
    ∧ inclusiveDayCount mar1_2025 mar1_2025 = 1 := by
  refine ⟨?_, by decide, by decide⟩
  exact C2_totalPrice_inclusive_day_count sampleDB 7 1 mar1_2025 mar3_2025
    "order_1" false sampleEquipment (by decide) rfl rfl rfl (by decide)

/-- C3: when payment session creation fails after the booking was persisted
and the equipment locked, the create operation terminates with the
equipment's availability restored to `true` and the booking's status set to
`payment_failed`. -/
theorem C3_rollback_completeness (db : DB) (userId equipmentId s e : Nat)
    (orderId : String) (equip : Equipment)
    (hfresh : bookingIdsFresh db)
    (h1 : getEquipment db equipmentId = some equip)
    (h2 : equip.availability = true)
    (h3 : checkEquipmentAvailability db equipmentId s e = true) :
    (getEquipment (postBookings db userId equipmentId s e orderId true).1
        equipmentId).map (fun x => x.availability) = some true
    ∧ (getBooking (postBookings db userId equipmentId s e orderId true).1
        db.nextBookingId).map (fun b => b.status) = some .payment_failed := by
  obtain ⟨-, hEq, hBk⟩ :=
    postBookings_rollback db userId equipmentId s e orderId equip hfresh h1 h2 h3
  rw [hEq, hBk]
  exact ⟨rfl, rfl⟩

/-- C3 witness: the rollback at the sample store. -/
theorem C3_witness :
    (getEquipment (postBookings sampleDB 7 1 10 20 "order_1" true).1 1).map
        (fun x => x.availability) = some true
    ∧ (getBooking (postBookings sampleDB 7 1 10 20 "order_1" true).1
        sampleDB.nextBookingId).map (fun b => b.status) = some .payment_failed :=
  C3_rollback_completeness sampleDB 7 1 10 20 "order_1" sampleEquipment
    (by decide) rfl rfl rfl

/-- C6: a verify-payment request whose signature fails verification rejects
with the invalid-signature error and leaves the whole store — in particular
the booking and the equipment — unchanged. -/
theorem C6_invalid_signature_state_unchanged (db : DB) (bookingId : Nat)
    (paymentId : String) (b : Booking) (equip : Equipment)
    (hb : getBooking db bookingId = some b)
    (he : getEquipment db b.equipmentId = some equip) :
    postVerifyPayment db bookingId paymentId false = (db, .invalidSignature) := by
  simp only [postVerifyPayment, hb, he, Bool.not_false, if_true]

/-- C6 witness: an invalid signature on the awaiting booking changes
nothing. -/
theorem C6_witness :
    postVerifyPayment awaitingDB 1 "pay_1" false
      = (awaitingDB, .invalidSignature) :=
  C6_invalid_signature_state_unchanged awaitingDB 1 "pay_1" awaitingBooking
    { sampleEquipment with availability := false } rfl rfl

/-- C8: the two historical `formatRupees` variants disagree on the currency
unit: there is a stored amount they render as different rupee values. -/
theorem C8_formatRupees_variants_disagree :
    ∃ amount : ℚ, formatRupeesReceiptHistory amount ≠ formatRupeesPart004 amount := by
  refine ⟨2000, ?_⟩
  unfold formatRupeesReceiptHistory formatRupeesPart004
  norm_num

/-- C7 counterexample: with no webhook secret configured
(`RAZORPAY_WEBHOOK_SECRET` unset), a request carrying no signature header at
all still transitions the booking to `paid` — the payload is trusted without
any HMAC verification, refuting the claim for every request. -/
theorem C7_counterexample_no_secret_no_verification :
    ((postWebhook (fun _ _ => "") awaitingDB none none "{}"
        { paymentStatus := "captured", orderBookingId := 1,
          paymentId := "pay_1" }).1.bookings.find?
        (fun b => b.id == 1)).map (fun b => b.status) = some .paid
    ∧ (awaitingDB.bookings.find? (fun b => b.id == 1)).map (fun b => b.status)
        = some .awaiting_payment := ⟨rfl, rfl⟩

/-- C7 amended: when a webhook secret is configured, no booking or equipment
state transition is performed unless the request carries a signature equal
to the HMAC of the raw body under that secret (for any HMAC function);
when no secret is configured the payload is processed without verification. -/
theorem C7_hmac_required_when_secret_configured
    (hmacSha256 : String → String → String) (db : DB) (secret : String)
    (signature : Option String) (body : String) (event : WebhookEvent)
    (h : signature ≠ some (hmacSha256 secret body)) :
    (postWebhook hmacSha256 db (some secret) signature body event).1 = db := by
  cases signature with
  | none => rfl
  | some sig =>
    show (if sig ≠ hmacSha256 secret body then (db, WebhookResult.invalidSignature)
        else (processWebhookEvent db event, WebhookResult.received)).1 = db
    rw [if_pos (fun hEq => h (by rw [hEq]))]

/-- C7 witness: a mismatched signature under a configured secret leaves the
sample store untouched. -/
theorem C7_witness :
    (postWebhook (fun s b => s ++ b) awaitingDB (some "sec") (some "bad") "x"
      { paymentStatus := "captured", orderBookingId := 1,
        paymentId := "pay_1" }).1 = awaitingDB :=
  C7_hmac_required_when_secret_configured (fun s b => s ++ b) awaitingDB "sec"
    (some "bad") "x" _ (by decide)

/-- An equipment listed with its availability flag switched off. -/
def ploughEquipment : Equipment :=
  { id := 2, ownerId := 9, name := "Plough", dailyRate := 500,
    availability := false }

/-- A store whose only equipment has `availability = false`. -/
def unavailableEquipmentDB : DB :=
  { equipments := [ploughEquipment], bookings := [], receipts := [],
    nextBookingId := 1, nextReceiptId := 1 }

/-- C9 counterexample: for an existing equipment whose availability flag is
false, the availability endpoint answers with the boolean only — the
response of that branch carries no resolved date range, refuting the claim
that every response branch includes it. -/
theorem C9_counterexample_flag_false_branch_omits_range :
    getAvailabilityRoute unavailableEquipmentDB 2 1000 (some 2000) (some 5000)
      = .okResp { available := false, startDate := none, endDate := none } :=
  rfl

/-- C9 amended: for an existing equipment whose availability flag is true,
the response carries the availability boolean together with the resolved
date range actually used — the start clamped to now-or-later and the end
adjusted to lie strictly after the start; the flag-false branch returns
only the boolean. -/
theorem C9_response_includes_resolved_range (db : DB) (equipmentId now : Nat)
    (qStart qEnd : Option Nat) (equip : Equipment)
    (h1 : getEquipment db equipmentId = some equip)
    (h2 : equip.availability = true) :
    getAvailabilityRoute db equipmentId now qStart qEnd
      = .okResp { available := checkEquipmentAvailability db equipmentId
                    (resolvedStart now qStart) (resolvedEnd now qStart qEnd),
                  startDate := some (resolvedStart now qStart),
                  endDate := some (resolvedEnd now qStart qEnd) }
    ∧ now ≤ resolvedStart now qStart
    ∧ resolvedStart now qStart < resolvedEnd now qStart qEnd := by
  refine ⟨?_, ?_, ?_⟩
  · simp only [getAvailabilityRoute, h1, h2, Bool.not_true, Bool.false_eq_true,
      if_false]
  · unfold resolvedStart
    split <;> omega
  · unfold resolvedEnd msPerDay
    split <;> omega

/-- C9 witness: a query with a past start date gets it clamped to `now` and
both resolved dates reported. -/
theorem C9_witness :
    getAvailabilityRoute sampleDB 1 1000 (some 500) (some 2000)
      = .okResp { available := checkEquipmentAvailability sampleDB 1
                    (resolvedStart 1000 (some 500))
                    (resolvedEnd 1000 (some 500) (some 2000)),
                  startDate := some (resolvedStart 1000 (some 500)),
                  endDate := some (resolvedEnd 1000 (some 500) (some 2000)) }
    ∧ 1000 ≤ resolvedStart 1000 (some 500)
    ∧ resolvedStart 1000 (some 500) < resolvedEnd 1000 (some 500) (some 2000) :=
  C9_response_includes_resolved_range sampleDB 1 1000 (some 500) (some 2000)
    sampleEquipment rfl rfl

/-- A paid booking of `sampleEquipment` by user 7, and a store holding it
with no receipt yet. -/
def paidBooking : Booking :=
  { awaitingBooking with status := .paid, razorpayPaymentId := some "pay_1" }

/-- Store with `paidBooking` and no receipts. -/
def paidNoReceiptDB : DB :=
  { equipments := [{ sampleEquipment with availability := false }],
    bookings := [paidBooking], receipts := [],
    nextBookingId := 2, nextReceiptId := 1 }

/-- C10 counterexample: authenticated user 8 requests the receipt of paid
booking 1, which belongs to user 7 and has no receipt yet; the auto-create
branch returns the freshly created receipt (userId 7) to user 8 without any
ownership check, refuting the claim. -/
theorem C10_counterexample_autocreate_ignores_requester :
    (okReceipt? (getBookingReceiptRoute paidNoReceiptDB 8 1).2).map
        (fun r => r.userId) = some 7
    ∧ (7 : Nat) ≠ 8 := ⟨rfl, by decide⟩

/-- C10 amended: on the branch that returns a pre-existing receipt the claim
holds — a receipt is only handed out when its `userId` equals the
requesting user's id (otherwise 403); the auto-create branch for a paid
booking, however, returns the new receipt to any authenticated requester. -/
theorem C10_existing_receipt_only_to_owner (db : DB)
    (requesterId bookingId : Nat) (r r' : Receipt)
    (hr : getReceiptByBookingId db bookingId = some r)
    (hok : (getBookingReceiptRoute db requesterId bookingId).2 = .ok r') :
    r'.userId = requesterId := by
  unfold getBookingReceiptRoute at hok
  cases hb : getBooking db bookingId with
  | none =>
    rw [hb] at hok
    have h3 : ReceiptResult.bookingNotFound = ReceiptResult.ok r' := hok
    cases h3
  | some booking =>
    rw [hb, hr] at hok
    have hok2 : (if r.userId ≠ requesterId then (db, ReceiptResult.notAuthorized)
        else (db, ReceiptResult.ok r)).2 = ReceiptResult.ok r' := hok
    by_cases hu : r.userId = requesterId
    · rw [if_neg (by simpa using hu)] at hok2
      have h3 : ReceiptResult.ok r = ReceiptResult.ok r' := hok2
      injection h3 with h4
      rw [← h4]
      exact hu
    · rw [if_pos (by simpa using hu)] at hok2
      have h3 : ReceiptResult.notAuthorized = ReceiptResult.ok r' := hok2
      cases h3

/-- The receipt stored for `paidBooking`, owned by user 7. -/
def storedReceipt : Receipt :=
  { id := 1, bookingId := 1, userId := 7, amount := 3000, status := .paid,
    razorpayPaymentId := some "pay_1" }

/-- Store with `paidBooking` and its stored receipt for user 7. -/
def paidWithReceiptDB : DB :=
  { paidNoReceiptDB with receipts := [storedReceipt], nextReceiptId := 2 }

/-- C10 witness: the owner (user 7) retrieves the stored receipt, whose
`userId` is their own. -/
theorem C10_witness : storedReceipt.userId = 7 :=
  C10_existing_receipt_only_to_owner paidWithReceiptDB 7 1 storedReceipt
    storedReceipt rfl rfl

/-- Step 1 of the double-booking trace: renter 7 books equipment 1 for
[10,20]; the booking reaches `awaiting_payment` and the equipment locks. -/
def c1DB1 : DB := (postBookings sampleDB 7 1 10 20 "order_1" false).1

/-- Step 2: the gateway webhook reports the payment failed; booking 1 moves
to `payment_failed` and the equipment is released. -/
def c1DB2 : DB :=
  (postWebhook (fun _ _ => "") c1DB1 none none "{}"
    { paymentStatus := "failed", orderBookingId := 1, paymentId := "" }).1

/-- Step 3: renter 8 books the same equipment for the overlapping range
[15,25]; the checks pass (booking 1 no longer holds the slot). -/
def c1DB3 : DB := (postBookings c1DB2 8 1 15 25 "order_2" false).1

/-- Step 4: a verify-payment request for booking 1 with a valid signature —
the handler has no status guard, so the `payment_failed` booking is
confirmed to `paid`. -/
def c1DB4 : DB := (postVerifyPayment c1DB3 1 "pay_1" true).1

/-- C1: the no-double-booking invariant fails at a reachable state.  After
the four-step trace `c1DB1…c1DB4` of atomic lifecycle operations, bookings
1 and 2 are on the same equipment with inclusively overlapping ranges
([10,20] and [15,25]) while booking 1 is `paid` and booking 2 is
`awaiting_payment` — two slot-holding bookings simultaneously. -/
theorem C1_double_booking_reachable :
    (getBooking c1DB4 1).map (fun b => b.status) = some .paid
    ∧ (getBooking c1DB4 2).map (fun b => b.status) = some .awaiting_payment
    ∧ (getBooking c1DB4 1).map (fun b => b.equipmentId) = some 1
    ∧ (getBooking c1DB4 2).map (fun b => b.equipmentId) = some 1
    ∧ (getBooking c1DB4 1).map (fun b => (b.startDate, b.endDate)) = some (10, 20)
    ∧ (getBooking c1DB4 2).map (fun b => (b.startDate, b.endDate)) = some (15, 25) :=
  ⟨rfl, rfl, rfl, rfl, rfl, rfl⟩

/-- C4: the receipt created by verify-payment stores
`amount = totalPrice * 100`, not `totalPrice`: confirming the awaiting
booking (totalPrice 3000) persists a receipt of amount 300000.  The repo's
own `fix-receipts.ts` declares `amount === totalPrice * 100` incorrect and
rewrites it to `totalPrice`, so this is a bug in the routes, not intent. -/
theorem C4_receipt_amount_times_100 :
    ((postVerifyPayment awaitingDB 1 "pay_1" true).1.receipts.find?
        (fun r => r.bookingId == 1)).map (fun r => r.amount) = some 300000
    ∧ (getBooking awaitingDB 1).map (fun b => b.totalPrice) = some 3000
    ∧ (300000 : Nat) ≠ 3000 :=
  ⟨rfl, rfl, by decide⟩

/-- The store after one successful verify-payment on the awaiting booking. -/
def c5DB1 : DB := (postVerifyPayment awaitingDB 1 "pay_1" true).1

/-- The store after a second, identical verify-payment call. -/
def c5DB2 : DB := (postVerifyPayment c5DB1 1 "pay_1" true).1

/-- C5: confirm is not idempotent.  After the first verify-payment the
booking is `paid` with exactly one receipt; a second call with the same
valid payment proof inserts a second receipt for the same booking, because
the handler has no already-paid guard and no existing-receipt check. -/
theorem C5_second_confirm_duplicates_receipt :
    (getBooking c5DB1 1).map (fun b => b.status) = some .paid
    ∧ (c5DB1.receipts.filter (fun r => r.bookingId == 1)).length = 1
    ∧ (c5DB2.receipts.filter (fun r => r.bookingId == 1)).length = 2 :=
  ⟨rfl, rfl, rfl⟩

end KrishiSadhan
